import Mathlib

/-!
Shallow embedding of `src/napari_affinities/widgets/affinities.py`.

The embedded parts are the training/inference controller generator
`train_affinities` (command classification, training step, snapshot step,
inference step, pipeline scope management) and the result-sink callbacks
`on_yield` and `add_layers`.  External collaborators (the gunpowder
pipeline, the torch module, the bioimageio prediction pipeline) appear as
oracle functions inside an environment record; the controller logic itself
is translated statement by statement from the source.

Arrays are modelled as a shape together with row-major flat data; array
entries are rationals standing in for the floating-point values (no claim
settled here depends on rounding behaviour).
-/

/-- A dense array: a shape together with row-major flat data. -/
structure Arr where
  shape : List Nat
  data : List ℚ
deriving DecidableEq, Repr

/-- `numpy.squeeze` / `xarray.squeeze` on shapes: drop every axis of size 1
(this is what `pred_data.squeeze()` and `affs.squeeze()` do in the source,
lines 389-390). -/
def squeezeShape (s : List Nat) : List Nat :=
  s.filter (fun d => d ≠ 1)

/-- Squeeze an array: the flat data is unchanged, size-1 axes disappear. -/
def squeezeArr (a : Arr) : Arr :=
  ⟨squeezeShape a.shape, a.data⟩

/-- The command payload delivered into the generator at a resumption
(`mode` in the source): `None`, the string sentinel `"snapshot"`, a numpy
array, or any other python value (represented by a describing string). -/
inductive Mode where
  | nonePayload : Mode
  | snapshotSentinel : Mode
  | arrayPayload (a : Arr) : Mode
  | otherPayload (s : String) : Mode
deriving DecidableEq, Repr

/-- Classification of one resumption, the outcome of source lines 358-365. -/
inductive StepClass where
  | nonInference (snapshotFlag : Bool) : StepClass
  | inference (a : Arr) : StepClass
  | unsupported : StepClass
deriving DecidableEq, Repr

/-- Source lines 358-365:
`if mode is None or mode == "snapshot": predict = False;
snapshot_iteration = mode is not None
elif isinstance(mode, np.ndarray): predict = True ... else: raise`. -/
def classifyMode (mode : Mode) : StepClass :=
  if mode = Mode.nonePayload ∨ mode = Mode.snapshotSentinel then
    StepClass.nonInference (decide (mode ≠ Mode.nonePayload))
  else
    match mode with
    | Mode.arrayPayload a => StepClass.inference a
    | _ => StepClass.unsupported

/-- A named array as passed around in result tuples: the triple
`(array_data, metadata, layer_type)` with `metadata` holding `name`,
`axes` and (for the inference emission only) an `offsets` entry. -/
structure NamedArray where
  data : Arr
  name : String
  axes : List String
  offsetsMeta : Option (List (List Int))
  layerKind : String
deriving DecidableEq, Repr

/-- The loss value carried by an emission: `float("nan")` before the first
training step, a computed scalar afterwards. -/
inductive LossVal where
  | nan : LossVal
  | val (q : ℚ) : LossVal
deriving DecidableEq, Repr

/-- One value yielded by the generator: the python tuple
`(iteration, loss, *named_arrays)`; its python length is
`2 + layers.length`. -/
structure Emission where
  iteration : Option Nat
  loss : Option LossVal
  layers : List NamedArray
deriving DecidableEq, Repr

/-- The exceptions the generator body can raise:
`unsupportedCommand` models `raise Exception(f"Uknown mode: {mode}")`
(line 365), `shapeMismatch` models the `AssertionError` of the three
inference shape assertions (lines 392-402), `pipelineArity` models the
`ValueError` from unpacking a batch of the wrong arity (lines 429/433). -/
inductive Err where
  | unsupportedCommand : Err
  | shapeMismatch : Err
  | pipelineArity : Err
deriving DecidableEq, Repr

/-- One batch produced by `pipeline.next(snapshot_iteration)`: the triples
in `arrays` are raw, affinity target, affinity mask, then any
shape-descriptor arrays; `snapshotArrays` are the extra diagnostic
triples. -/
structure PipeBatch where
  rawArray : NamedArray
  affTargetArray : NamedArray
  affMaskArray : NamedArray
  lsdArrays : List NamedArray
  snapshotArrays : List NamedArray
deriving DecidableEq, Repr

/-- The `arrays` tuple as returned by the pipeline and re-emitted verbatim
in a snapshot emission. -/
def PipeBatch.arrays (b : PipeBatch) : List NamedArray :=
  b.rawArray :: b.affTargetArray :: b.affMaskArray :: b.lsdArrays

/-- The session environment: the `lsds` flag, the model's `offsets`
(`self.model.config["mws"]["offsets"]`), and the external collaborators as
oracles.  `forward` is the torch module (indexed by the iteration at which
it is invoked, since training updates the weights); its second component
is the shape-descriptor head, used only when `lsds` is set.
`predictPipeline` is the bioimageio prediction pipeline built from the
checkpoint written at the given iteration. -/
structure Env where
  lsds : Bool
  offsets : List (List Int)
  pipelineNext : Nat → Bool → PipeBatch
  forward : Nat → Arr → Arr × Arr
  predictPipeline : Nat → Arr → Arr

/-- `ndim = len(offsets[0])` (line 335); `headD` totalises the python
indexing, which presupposes a nonempty offset list. -/
def Env.ndim (env : Env) : Nat :=
  (env.offsets.headD []).length

/-- Python negative slice `l[-n:]`; note that for `n = 0` it is the whole
list, not the empty one. -/
def lastSlice (l : List String) (n : Nat) : List String :=
  if n = 0 then l else l.drop (l.length - n)

/-- `spatial_axes = ["time", "z", "y", "x"][-ndim:]` (line 336). -/
def Env.spatialAxes (env : Env) : List String :=
  lastSlice ["time", "z", "y", "x"] env.ndim

/-- Element-wise tensor product (`pred * mask`); the pipeline contract
guarantees equal shapes, so the data lines up index by index. -/
def mulArr (a b : Arr) : Arr :=
  ⟨a.shape, List.zipWith (fun x y => x * y) a.data b.data⟩

/-- `torch.nn.MSELoss()` with its default mean reduction: the mean over
all elements of the squared difference. -/
def mseLoss (pred target : Arr) : ℚ :=
  (List.zipWith (fun x y => (x - y) ^ 2) pred.data target.data).sum
    / (pred.data.length : ℚ)

/-- The `pred_arrays` list built at lines 456-486: always the detached
affinity prediction named `"sample_aff_pred"`, plus the shape-descriptor
prediction named `"sample_lsd_pred"` when `lsds` is set; both with axes
`("batch", "channel", *spatial_axes)`. -/
def predArrays (env : Env) (affPred lsdPred : Arr) : List NamedArray :=
  [⟨affPred, "sample_aff_pred", "batch" :: "channel" :: env.spatialAxes,
    Option.none, "image"⟩]
    ++ (if env.lsds then
          [⟨lsdPred, "sample_lsd_pred",
            "batch" :: "channel" :: env.spatialAxes, Option.none, "image"⟩]
        else [])

/-- The named arrays attached to a training-step emission: the full
`(*arrays, *snapshot_arrays, *pred_arrays)` splat when the snapshot flag
is set (line 487-493), nothing otherwise (line 495). -/
def emittedLayers (env : Env) (b : PipeBatch) (affPred lsdPred : Arr)
    (snapshotFlag : Bool) : List NamedArray :=
  if snapshotFlag then
    b.arrays ++ b.snapshotArrays ++ predArrays env affPred lsdPred
  else []

/-- One training / snapshot step, source lines 423-495: pull a batch,
compute the masked mean-squared-error loss (the product of the affinity
and shape-descriptor components when `lsds` is set), one optimizer step
(weight mutation lives in the `forward` oracle's iteration index), and
return the scalar loss together with the arrays to attach to the
emission.  `Option.none` is the `ValueError` of a failed unpacking
`lsd_target, lsd_mask = lsd_arrays`.  In the non-lsds branch the module
returns a single tensor, modelled as the first component of `forward`;
the second argument fed to `emittedLayers` is then irrelevant (it is
ignored whenever `lsds` is off). -/
def trainStep (env : Env) (iteration : Nat) (snapshotFlag : Bool) :
    Option (ℚ × List NamedArray) :=
  let b := env.pipelineNext iteration snapshotFlag
  if env.lsds then
    match b.lsdArrays with
    | [lsdTargetArray, lsdMaskArray] =>
      let p := env.forward iteration b.rawArray.data
      let affLoss := mseLoss (mulArr p.1 b.affMaskArray.data)
        (mulArr b.affTargetArray.data b.affMaskArray.data)
      let lsdLoss := mseLoss (mulArr p.2 lsdMaskArray.data)
        (mulArr lsdTargetArray.data lsdMaskArray.data)
      Option.some (affLoss * lsdLoss,
        emittedLayers env b p.1 p.2 snapshotFlag)
    | _ => Option.none
  else
    let affPred := (env.forward iteration b.rawArray.data).1
    let loss := mseLoss (mulArr affPred b.affMaskArray.data)
      (mulArr b.affTargetArray.data b.affMaskArray.data)
    Option.some (loss, emittedLayers env b affPred affPred snapshotFlag)

/-- One inference step, source lines 367-420: checkpoint (a side effect
on the weight source, absorbed into the `predictPipeline` oracle's
iteration index), add a synthetic batch dimension, run the prediction
pipeline, squeeze both input and output, check the three shape
assertions, and on success emit the affinities with their metadata. -/
def inferStep (env : Env) (iteration : Nat) (a : Arr) : Except Err Emission :=
  let predData0 : Arr := ⟨1 :: a.shape, a.data⟩
  let affs0 := env.predictPipeline iteration predData0
  let predData := squeezeArr predData0
  let affs := squeezeArr affs0
  if predData.shape.length ≠ env.ndim then
    Except.error Err.shapeMismatch
  else if affs.shape.length ≠ env.ndim + 1 then
    Except.error Err.shapeMismatch
  else if affs.shape.headD 0 ≠ env.offsets.length then
    Except.error Err.shapeMismatch
  else
    Except.ok ⟨Option.none, Option.none,
      [⟨affs, "Affinities", "channel" :: env.spatialAxes,
        Option.some env.offsets, "image"⟩]⟩

/-- One resumption of the generator with command `mode`, from the current
iteration counter: classify the command, run the corresponding step, and
return the new iteration counter together with the emitted tuple (or the
propagating exception).  Training steps increment the counter
(line 454) and emit `(iteration, loss, ...)`; inference leaves it
unchanged and emits `(None, None, affinities)`. -/
def stepGen (env : Env) (iteration : Nat) (mode : Mode) :
    Except Err (Nat × Emission) :=
  match classifyMode mode with
  | StepClass.nonInference snapshotFlag =>
    match trainStep env iteration snapshotFlag with
    | Option.none => Except.error Err.pipelineArity
    | Option.some (loss, layers) =>
      Except.ok (iteration + 1,
        ⟨Option.some (iteration + 1), Option.some (LossVal.val loss), layers⟩)
  | StepClass.inference a =>
    match inferStep env iteration a with
    | Except.error e => Except.error e
    | Except.ok em => Except.ok (iteration, em)
  | StepClass.unsupported => Except.error Err.unsupportedCommand

/-- Observable events of one session: the pipeline scope opening and
closing, each yielded tuple, and a propagating exception. -/
inductive Event where
  | openScope : Event
  | emitted (em : Emission) : Event
  | raised (e : Err) : Event
  | closeScope : Event
deriving DecidableEq, Repr

/-- Drive the generator with a list of commands, starting from the given
iteration counter.  An exception propagates out of the generator body and
terminates it (a python generator that raises is finished: subsequent
sends cannot reach the loop), so no later command is processed. -/
def runLoop (env : Env) : Nat → List Mode → List Event
  | _, [] => []
  | iteration, mode :: rest =>
    match stepGen env iteration mode with
    | Except.error e => [Event.raised e]
    | Except.ok (it2, em) => Event.emitted em :: runLoop env it2 rest

/-- The priming value `(iteration, loss) = (0, float("nan"))` yielded at
line 356, before any command is consumed. -/
def primingEmission : Emission :=
  ⟨Option.some 0, Option.some LossVal.nan, []⟩

/-- A whole session, source lines 352-495: the `with
self.build_pipeline(...)` scope opens, the priming tuple is yielded, the
commands are consumed until the caller stops driving the generator or an
exception propagates, and the `with` statement closes the scope in every
one of those cases (normal `GeneratorExit` on teardown, or exception
unwinding). -/
def runSession (env : Env) (cmds : List Mode) : List Event :=
  Event.openScope :: Event.emitted primingEmission ::
    (runLoop env 0 cmds ++ [Event.closeScope])

/-- Count occurrences of one event in a trace. -/
def countEvent (e : Event) : List Event → Nat
  | [] => 0
  | x :: rest => (if x = e then 1 else 0) + countEvent e rest

/-- Iterate `stepGen` over a command list and return the final iteration
counter (or the first propagating exception). -/
def runIters (env : Env) : Nat → List Mode → Except Err Nat
  | iteration, [] => Except.ok iteration
  | iteration, mode :: rest =>
    match stepGen env iteration mode with
    | Except.error e => Except.error e
    | Except.ok (it2, _) => runIters env it2 rest

/-- The viewer as mutated by the result sink: its dimension axis labels
and its name-keyed display layers (an insertion-ordered association
list, as `viewer.layers` is). -/
structure ViewerState where
  axisLabels : List String
  layers : List (String × Arr)
deriving DecidableEq, Repr

/-- `self.viewer.layers[name]`: `Option.none` is the `KeyError` branch. -/
def lookupLayer : List (String × Arr) → String → Option Arr
  | [], _ => Option.none
  | (n, d) :: rest, name =>
    if n = name then Option.some d else lookupLayer rest name

/-- `layer.data = ...`: replace the data of the named layer in place. -/
def setLayerData : List (String × Arr) → String → Arr → List (String × Arr)
  | [], _, _ => []
  | (n, d) :: rest, name, newData =>
    if n = name then (n, newData) :: rest
    else (n, d) :: setLayerData rest name newData

/-- `numpy.reshape(-1, *sample_shape)`: keep the flat data and infer the
leading dimension; `Option.none` is the `ValueError` when the total size
is not divisible by the sample size. -/
def reshapeFlat (a : Arr) (sampleShape : List Nat) : Option Arr :=
  let total := a.shape.prod
  let p := sampleShape.prod
  if 0 < p ∧ p ∣ total then
    Option.some ⟨(total / p) :: sampleShape, a.data⟩
  else Option.none

/-- `numpy.concatenate([... , ...], axis=0)` of two arrays whose trailing
dimensions agree: leading dimensions add, flat data appends in order. -/
def concatAxis0 (a b : Arr) : Option Arr :=
  match a.shape, b.shape with
  | n1 :: rest1, n2 :: rest2 =>
    if rest1 = rest2 then Option.some ⟨(n1 + n2) :: rest1, a.data ++ b.data⟩
    else Option.none
  | _, _ => Option.none

/-- Source lines 298-299: `batch_dim = axes.index("batch") if "batch" in
axes else -1` and `sample_shape = data.shape[batch_dim + 1:]` (for
`batch_dim = -1` the python slice `[0:]` is the whole shape). -/
def sampleShapeOf (axes : List String) (shape : List Nat) : List Nat :=
  match axes.findIdx? (fun ax => ax = "batch") with
  | Option.some i => shape.drop (i + 1)
  | Option.none => shape

/-- Source lines 284-296: when the incoming axis names share nothing with
the current viewer labels, recompute the labels from the spatial axes,
prefixing a synthetic `"channels"` label when the previous label count
exceeds the spatial axis count; `Option.none` is the `AssertionError`
when the previous label count exceeds it by more than one. -/
def updateAxisLabels (labels axes : List String) :
    Option (List String) :=
  if labels.filter (fun l => axes.contains l) = [] then
    let spatial := axes.filter (fun ax => ¬(ax = "batch" ∨ ax = "channel"))
    if labels.length ≤ spatial.length + 1 then
      Option.some
        (if spatial.length < labels.length then "channels" :: spatial
         else spatial)
    else Option.none
  else Option.some labels

/-- Deliver one named array to the viewer, source lines 277-324: refresh
the axis labels, then either concatenate onto the existing layer of that
name along the (re-inferred) batch axis — prefixing a `"batch"` label when
the first label is not already `"batch"` — or create a new layer of the
stated kind (a `layer_type` other than `"image"`/`"labels"` is silently
dropped by the if/elif at lines 321-324).  `Option.none` is any
propagating exception (`AssertionError`, reshape/concatenate
`ValueError`, `IndexError` on an empty label list). -/
def addLayerArray (st : ViewerState) (na : NamedArray) :
    Option ViewerState :=
  match updateAxisLabels st.axisLabels na.axes with
  | Option.none => Option.none
  | Option.some labels1 =>
    let sampleShape := sampleShapeOf na.axes na.data.shape
    match lookupLayer st.layers na.name with
    | Option.some existing =>
      match reshapeFlat existing sampleShape,
            reshapeFlat na.data sampleShape with
      | Option.some ex2, Option.some new2 =>
        match concatAxis0 ex2 new2 with
        | Option.some combined =>
          match labels1 with
          | [] => Option.none
          | l0 :: rest =>
            Option.some
              ⟨if l0 ≠ "batch" then "batch" :: l0 :: rest else l0 :: rest,
               setLayerData st.layers na.name combined⟩
        | Option.none => Option.none
      | _, _ => Option.none
    | Option.none =>
      if na.layerKind = "image" ∨ na.layerKind = "labels" then
        Option.some ⟨labels1, st.layers ++ [(na.name, na.data)]⟩
      else Option.some ⟨labels1, st.layers⟩

/-- `add_layers`: deliver each named array in order, threading the viewer
state (the source keeps `viewer_axis_labels` in a local across the
loop). -/
def addLayers (st : ViewerState) : List NamedArray → Option ViewerState
  | [] => Option.some st
  | na :: rest =>
    match addLayerArray st na with
    | Option.none => Option.none
    | Option.some st2 => addLayers st2 rest

/-- The widget state touched by `on_yield`: the two display strings and
the viewer. -/
structure UIState where
  iterationsText : String
  lossText : String
  viewer : ViewerState
deriving DecidableEq, Repr

/-- The string `f"{loss}"` shown in the loss label. -/
def lossRepr : LossVal → String
  | LossVal.nan => "nan"
  | LossVal.val q => toString q

/-- `on_yield`, source lines 266-272: unpack the tuple, deliver the named
arrays when there are any, and update the two display strings only when
both `iteration` and `loss` are present. -/
def onYield (st : UIState) (em : Emission) : Option UIState :=
  let st1 : Option UIState :=
    if 0 < em.layers.length then
      match addLayers st.viewer em.layers with
      | Option.none => Option.none
      | Option.some v => Option.some ⟨st.iterationsText, st.lossText, v⟩
    else Option.some st
  match st1 with
  | Option.none => Option.none
  | Option.some st2 =>
    match em.iteration, em.loss with
    | Option.some it, Option.some l =>
      Option.some ⟨toString it, lossRepr l, st2.viewer⟩
    | _, _ => Option.some st2

/-! Helper lemmas (shared). -/

/-- Counting distributes over trace concatenation. -/
theorem countEvent_append (e : Event) (l1 l2 : List Event) :
    countEvent e (l1 ++ l2) = countEvent e l1 + countEvent e l2 := by
  induction l1 with
  | nil => simp [countEvent]
  | cons x rest ih =>
    simp [countEvent, ih]
    omega

/-- The command-processing loop emits tuples and exceptions only: it never
opens a scope. -/
theorem runLoop_count_open (env : Env) :
    ∀ cmds iteration,
      countEvent Event.openScope (runLoop env iteration cmds) = 0 := by
  intro cmds
  induction cmds with
  | nil => intro it; simp [runLoop, countEvent]
  | cons m rest ih =>
    intro it
    cases h : stepGen env it m with
    | error e => simp [runLoop, h, countEvent]
    | ok p =>
      obtain ⟨it2, em⟩ := p
      simp [runLoop, h, countEvent, ih]

/-- The command-processing loop never closes a scope either. -/
theorem runLoop_count_close (env : Env) :
    ∀ cmds iteration,
      countEvent Event.closeScope (runLoop env iteration cmds) = 0 := by
  intro cmds
  induction cmds with
  | nil => intro it; simp [runLoop, countEvent]
  | cons m rest ih =>
    intro it
    cases h : stepGen env it m with
    | error e => simp [runLoop, h, countEvent]
    | ok p =>
      obtain ⟨it2, em⟩ := p
      simp [runLoop, h, countEvent, ih]

/-! The claims. -/

/-- Claim C1: on each resumption the delivered command is classified in
tie-break order: no payload or the string sentinel give a non-inference
step whose snapshot flag is true iff the payload was the sentinel; an
array payload gives an inference step; every other payload fails the step
with `UnsupportedCommand` rather than being silently ignored. -/
theorem classify_command_tiebreak (env : Env) (iteration : Nat) :
    classifyMode Mode.nonePayload = StepClass.nonInference false ∧
    classifyMode Mode.snapshotSentinel = StepClass.nonInference true ∧
    (∀ a : Arr, classifyMode (Mode.arrayPayload a) = StepClass.inference a) ∧
    (∀ s : String,
      classifyMode (Mode.otherPayload s) = StepClass.unsupported) ∧
    (∀ s : String,
      stepGen env iteration (Mode.otherPayload s) =
        Except.error Err.unsupportedCommand) := by
  refine ⟨rfl, rfl, ?_, ?_, ?_⟩ <;> intro x <;> simp [classifyMode, stepGen]

/-- Claim C7: every session opens the pipeline scope and then immediately
performs one priming suspension emitting `(0, NaN)`, before any command
from the list is consumed. -/
theorem priming_emission_first (env : Env) (cmds : List Mode) :
    runSession env cmds =
      Event.openScope ::
        Event.emitted ⟨Option.some 0, Option.some LossVal.nan, []⟩ ::
        (runLoop env 0 cmds ++ [Event.closeScope]) := rfl

/-- Claim C8: however the session ends — the caller stops driving the
generator, or an exception propagates out of a step — the pipeline scope
opened at session start is closed exactly once (and was opened exactly
once). -/
theorem pipeline_scope_closed_once (env : Env) (cmds : List Mode) :
    countEvent Event.closeScope (runSession env cmds) = 1 ∧
    countEvent Event.openScope (runSession env cmds) = 1 := by
  constructor <;>
    simp [runSession, countEvent, countEvent_append, primingEmission,
      runLoop_count_open, runLoop_count_close]

/-- A placeholder pipeline triple used by the concrete test environments
below; the controller never inspects these fields on the paths under
test. -/
def naE (nm : String) : NamedArray :=
  ⟨⟨[], []⟩, nm, [], Option.none, "image"⟩

/-- A concrete batch for the no-lsds test environment. -/
def batchW : PipeBatch :=
  ⟨naE "raw", naE "gt", naE "mask", [], []⟩

/-- A concrete no-lsds environment: two 2-dimensional offsets (so
`ndim = 2`), and a prediction pipeline whose output always has shape
`(2, 4, 4)`. -/
def envW : Env :=
  ⟨false, [[-1, 0], [0, -1]], fun _ _ => batchW, fun _ a => (a, a),
   fun _ _ => ⟨[2, 4, 4], []⟩⟩

/-- A well-shaped inference input for `envW`. -/
def arrW : Arr := ⟨[4, 4], []⟩

/-- The emission `envW` produces for the inference command `arrW`. -/
def emW : Emission :=
  ⟨Option.none, Option.none,
   [⟨⟨[2, 4, 4], []⟩, "Affinities", ["channel", "y", "x"],
     Option.some [[-1, 0], [0, -1]], "image"⟩]⟩

/-- Claim C2: an inference command that passes the shape checks makes the
controller emit a tuple whose single named array is called
`"Affinities"`, has leading dimension exactly `len(offsets)`, carries the
offsets in its metadata, layer kind `image`, and axes
`(channel, *spatial_axes)` with `spatial_axes` the last `ndim` entries of
`[time, z, y, x]`; in that emission iteration and loss are both absent,
and the iteration counter is unchanged. -/
theorem inference_emission_contract (env : Env) (iteration it2 : Nat)
    (a : Arr) (em : Emission) (hnd : 0 < env.ndim)
    (hok : stepGen env iteration (Mode.arrayPayload a) =
      Except.ok (it2, em)) :
    it2 = iteration ∧ em.iteration = Option.none ∧ em.loss = Option.none ∧
    ∃ na : NamedArray,
      em.layers = [na] ∧
      na.name = "Affinities" ∧
      na.layerKind = "image" ∧
      na.offsetsMeta = Option.some env.offsets ∧
      na.axes = "channel" :: List.drop (4 - env.ndim) ["time", "z", "y", "x"] ∧
      na.data.shape.headD 0 = env.offsets.length := by
  have hc : classifyMode (Mode.arrayPayload a) = StepClass.inference a := by
    simp [classifyMode]
  simp only [stepGen, hc] at hok
  cases hi : inferStep env iteration a with
  | error e => rw [hi] at hok; cases hok
  | ok em2 =>
    rw [hi] at hok
    cases hok
    unfold inferStep at hi
    dsimp only at hi
    split at hi
    · cases hi
    · split at hi
      · cases hi
      · split at hi
        · cases hi
        · rename_i h1 h2 h3
          cases hi
          refine ⟨rfl, rfl, rfl, ⟨_, rfl, rfl, rfl, rfl, ?_, ?_⟩⟩
          · have hz : env.ndim ≠ 0 := Nat.pos_iff_ne_zero.mp hnd
            simp [Env.spatialAxes, lastSlice, hz]
          · simpa using h3

/-- Witness for claim C2: the contract evaluated on the concrete
environment `envW` and input `arrW`. -/
theorem inference_emission_contract_witness :
    0 < envW.ndim ∧
    stepGen envW 0 (Mode.arrayPayload arrW) = Except.ok (0, emW) ∧
    (0 = 0 ∧ emW.iteration = Option.none ∧ emW.loss = Option.none ∧
      ∃ na : NamedArray,
        emW.layers = [na] ∧
        na.name = "Affinities" ∧
        na.layerKind = "image" ∧
        na.offsetsMeta = Option.some envW.offsets ∧
        na.axes =
          "channel" :: List.drop (4 - envW.ndim) ["time", "z", "y", "x"] ∧
        na.data.shape.headD 0 = envW.offsets.length) :=
  ⟨by decide, by rfl,
   inference_emission_contract envW 0 0 arrW emW (by decide) (by rfl)⟩

/-- An inference input that is 3-dimensional (so its dimensionality
differs from `envW.ndim = 2`) but whose leading dimension is 1, so
`squeeze` removes it. -/
def arrSqueezable : Arr := ⟨[1, 4, 4], []⟩

/-- An inference input that is 3-dimensional with no size-1 axes. -/
def arrBad : Arr := ⟨[4, 4, 4], []⟩

/-- Claim C3 counterexample.  First part: the input `arrSqueezable` has
dimensionality 3, different from `envW.ndim = 2`, yet the step does not
raise — `squeeze()` removes its size-1 leading axis, and a Result Tuple
is emitted.  Second part: on an input that really fails the checks the
assertion does not merely abort the inference step: the exception
propagates out of the generator, so a subsequent plain training command
is never processed (the session is not left intact; only the scope
closing still happens). -/
theorem inference_shape_claim_refuted :
    (arrSqueezable.shape.length ≠ envW.ndim ∧
      stepGen envW 0 (Mode.arrayPayload arrSqueezable) =
        Except.ok (0, emW)) ∧
    (stepGen envW 0 (Mode.arrayPayload arrBad) =
        Except.error Err.shapeMismatch ∧
      runSession envW [Mode.arrayPayload arrBad, Mode.nonePayload] =
        [Event.openScope, Event.emitted primingEmission,
         Event.raised Err.shapeMismatch, Event.closeScope]) :=
  ⟨⟨by decide, by rfl⟩, by rfl, by rfl⟩

/-- Claim C3 (amended): the inference shape checks apply to the squeezed
arrays — the input after adding the synthetic batch axis and removing all
size-1 axes, and the squeezed output.  When any of the three checks
fails, the step raises `ShapeMismatch` and emits no Result Tuple; the
exception propagates out of the generator and terminates the session, so
no subsequent command is processed. -/
theorem inference_shape_mismatch_amended (env : Env) (iteration : Nat)
    (a : Arr)
    (h : (squeezeShape (1 :: a.shape)).length ≠ env.ndim ∨
      (squeezeShape
          (env.predictPipeline iteration ⟨1 :: a.shape, a.data⟩).shape).length
        ≠ env.ndim + 1 ∨
      (squeezeShape
          (env.predictPipeline iteration ⟨1 :: a.shape, a.data⟩).shape).headD 0
        ≠ env.offsets.length) :
    stepGen env iteration (Mode.arrayPayload a) =
      Except.error Err.shapeMismatch ∧
    ∀ rest, runLoop env iteration (Mode.arrayPayload a :: rest) =
      [Event.raised Err.shapeMismatch] := by
  have hc : classifyMode (Mode.arrayPayload a) = StepClass.inference a := by
    simp [classifyMode]
  have hstep : stepGen env iteration (Mode.arrayPayload a) =
      Except.error Err.shapeMismatch := by
    simp only [stepGen, hc]
    have hi : inferStep env iteration a = Except.error Err.shapeMismatch := by
      unfold inferStep
      dsimp only
      rcases h with h1 | h23
      · rw [if_pos]
        exact h1
      · by_cases h1 : (squeezeArr ⟨1 :: a.shape, a.data⟩).shape.length ≠ env.ndim
        · rw [if_pos h1]
        · rw [if_neg h1]
          rcases h23 with h2 | h3
          · rw [if_pos]
            exact h2
          · by_cases h2 : (squeezeArr
                (env.predictPipeline iteration
                  ⟨1 :: a.shape, a.data⟩)).shape.length ≠ env.ndim + 1
            · rw [if_pos h2]
            · rw [if_neg h2, if_pos]
              exact h3
    rw [hi]
  refine ⟨hstep, fun rest => ?_⟩
  simp [runLoop, hstep]

/-- Witness for the amended claim C3, at the genuinely failing input
`arrBad` in environment `envW`. -/
theorem inference_shape_mismatch_amended_witness :
    (squeezeShape (1 :: arrBad.shape)).length ≠ envW.ndim ∧
    stepGen envW 0 (Mode.arrayPayload arrBad) =
      Except.error Err.shapeMismatch ∧
    runLoop envW 0 [Mode.arrayPayload arrBad, Mode.nonePayload] =
      [Event.raised Err.shapeMismatch] :=
  ⟨by decide,
   (inference_shape_mismatch_amended envW 0 arrBad (Or.inl (by decide))).1,
   (inference_shape_mismatch_amended envW 0 arrBad
     (Or.inl (by decide))).2 [Mode.nonePayload]⟩

/-- Abbreviation for the loss a plain (non-lsds) training step computes:
the masked affinity mean-squared-error of source lines 446-450. -/
def plainLoss (env : Env) (iteration : Nat) : ℚ :=
  mseLoss
    (mulArr
      (env.forward iteration
        (env.pipelineNext iteration false).rawArray.data).1
      (env.pipelineNext iteration false).affMaskArray.data)
    (mulArr (env.pipelineNext iteration false).affTargetArray.data
      (env.pipelineNext iteration false).affMaskArray.data)

/-- A plain training step without shape-descriptors: the counter advances
by one and exactly the pair `(iteration, loss)` is emitted. -/
theorem stepGen_plain (env : Env) (h : env.lsds = false) (iteration : Nat) :
    stepGen env iteration Mode.nonePayload =
      Except.ok (iteration + 1,
        ⟨Option.some (iteration + 1),
         Option.some (LossVal.val (plainLoss env iteration)), []⟩) := by
  simp [stepGen, classifyMode, trainStep, emittedLayers, plainLoss, h]

/-- Iterating `n` plain training steps adds `n` to the counter. -/
theorem runIters_replicate_none (env : Env) (h : env.lsds = false) :
    ∀ n iteration,
      runIters env iteration (List.replicate n Mode.nonePayload) =
        Except.ok (iteration + n) := by
  intro n
  induction n with
  | zero => intro it; simp [runIters]
  | succ k ih =>
    intro it
    have harith : it + 1 + k = it + (k + 1) := by omega
    simp [List.replicate, runIters, stepGen_plain env h, ih, harith]

/-- Claim C4: with shape-descriptors disabled, a sequence of `n` plain
training-step commands drives the iteration counter from 0 to exactly
`n`; each plain step advances the counter by one and emits exactly the
pair `(iteration, loss)` with no attached arrays; no step of any kind
ever decreases the counter (it is never reset inside a session). -/
theorem training_iteration_count (env : Env) (n : Nat)
    (h : env.lsds = false) :
    runIters env 0 (List.replicate n Mode.nonePayload) = Except.ok n ∧
    (∀ iteration, stepGen env iteration Mode.nonePayload =
      Except.ok (iteration + 1,
        ⟨Option.some (iteration + 1),
         Option.some (LossVal.val (plainLoss env iteration)), []⟩)) ∧
    (∀ iteration mode it2 em,
      stepGen env iteration mode = Except.ok (it2, em) → iteration ≤ it2) := by
  refine ⟨?_, stepGen_plain env h, ?_⟩
  · have := runIters_replicate_none env h n 0
    simpa using this
  · intro it mode it2 em hok
    unfold stepGen at hok
    cases hmode : classifyMode mode with
    | nonInference snap =>
      rw [hmode] at hok
      dsimp only at hok
      cases ht : trainStep env it snap with
      | none => simp [ht] at hok
      | some p =>
        obtain ⟨l, ls⟩ := p
        simp [ht] at hok
        obtain ⟨h1, h2⟩ := hok
        omega
    | inference a =>
      rw [hmode] at hok
      dsimp only at hok
      cases hi : inferStep env it a with
      | error e => simp [hi] at hok
      | ok em2 =>
        simp [hi] at hok
        obtain ⟨h1, h2⟩ := hok
        omega
    | unsupported =>
      rw [hmode] at hok
      simp at hok

/-- Witness for claim C4: three plain steps in `envW` end at iteration 3. -/
theorem training_iteration_count_witness :
    envW.lsds = false ∧
    runIters envW 0 (List.replicate 3 Mode.nonePayload) = Except.ok 3 :=
  ⟨rfl, (training_iteration_count envW 3 rfl).1⟩

/-- Claim C5: with shape-descriptors enabled, the total loss of a
training step is exactly the product of the masked affinity loss and the
masked shape-descriptor loss, each being the mean-squared error of the
element-wise product of prediction and mask against the element-wise
product of target and mask. -/
theorem lsds_loss_product (env : Env) (iteration : Nat)
    (snapshotFlag : Bool) (lsdTargetArray lsdMaskArray : NamedArray)
    (hl : env.lsds = true)
    (hb : (env.pipelineNext iteration snapshotFlag).lsdArrays =
      [lsdTargetArray, lsdMaskArray]) :
    ∃ layers,
      trainStep env iteration snapshotFlag =
        Option.some
          (mseLoss
              (mulArr
                (env.forward iteration
                  (env.pipelineNext iteration snapshotFlag).rawArray.data).1
                (env.pipelineNext iteration snapshotFlag).affMaskArray.data)
              (mulArr
                (env.pipelineNext iteration snapshotFlag).affTargetArray.data
                (env.pipelineNext iteration snapshotFlag).affMaskArray.data)
            *
            mseLoss
              (mulArr
                (env.forward iteration
                  (env.pipelineNext iteration snapshotFlag).rawArray.data).2
                lsdMaskArray.data)
              (mulArr lsdTargetArray.data lsdMaskArray.data),
           layers) := by
  refine ⟨emittedLayers env (env.pipelineNext iteration snapshotFlag)
    (env.forward iteration
      (env.pipelineNext iteration snapshotFlag).rawArray.data).1
    (env.forward iteration
      (env.pipelineNext iteration snapshotFlag).rawArray.data).2
    snapshotFlag, ?_⟩
  simp only [trainStep, hl, if_true, hb]

/-- Shape-descriptor target and mask for the concrete lsds environment. -/
def ltW : NamedArray :=
  ⟨⟨[4], [0, 0, 0, 0]⟩, "lsd_target", [], Option.none, "image"⟩

/-- See `ltW`. -/
def lmW : NamedArray :=
  ⟨⟨[4], [1, 1, 1, 1]⟩, "lsd_mask", [], Option.none, "image"⟩

/-- A concrete batch whose masked component losses come out as 2 and 3. -/
def batchL : PipeBatch :=
  ⟨⟨⟨[1], [0]⟩, "raw", [], Option.none, "image"⟩,
   ⟨⟨[2], [0, 0]⟩, "aff_target", [], Option.none, "image"⟩,
   ⟨⟨[2], [1, 1]⟩, "aff_mask", [], Option.none, "image"⟩,
   [ltW, lmW], []⟩

/-- A concrete environment with shape-descriptors enabled. -/
def envL : Env :=
  ⟨true, [[-1, 0], [0, -1]], fun _ _ => batchL,
   fun _ _ => (⟨[2], [2, 0]⟩, ⟨[4], [2, 2, 2, 0]⟩), fun _ a => a⟩

/-- Witness for claim C5: in `envL` the masked affinity loss is 2, the
masked shape-descriptor loss is 3, and the step's total loss is their
product 6. -/
theorem lsds_loss_product_witness :
    envL.lsds = true ∧
    (envL.pipelineNext 0 false).lsdArrays = [ltW, lmW] ∧
    (∃ layers,
      trainStep envL 0 false =
        Option.some
          (mseLoss
              (mulArr
                (envL.forward 0 (envL.pipelineNext 0 false).rawArray.data).1
                (envL.pipelineNext 0 false).affMaskArray.data)
              (mulArr (envL.pipelineNext 0 false).affTargetArray.data
                (envL.pipelineNext 0 false).affMaskArray.data)
            *
            mseLoss
              (mulArr
                (envL.forward 0 (envL.pipelineNext 0 false).rawArray.data).2
                lmW.data)
              (mulArr ltW.data lmW.data),
           layers)) ∧
    mseLoss
        (mulArr (envL.forward 0 (envL.pipelineNext 0 false).rawArray.data).1
          (envL.pipelineNext 0 false).affMaskArray.data)
        (mulArr (envL.pipelineNext 0 false).affTargetArray.data
          (envL.pipelineNext 0 false).affMaskArray.data) = 2 ∧
    mseLoss
        (mulArr (envL.forward 0 (envL.pipelineNext 0 false).rawArray.data).2
          lmW.data)
        (mulArr ltW.data lmW.data) = 3 ∧
    trainStep envL 0 false = Option.some (6, []) :=
  ⟨rfl, rfl, lsds_loss_product envL 0 false ltW lmW rfl rfl,
   by norm_num [mseLoss, mulArr, envL, batchL, ltW, lmW],
   by norm_num [mseLoss, mulArr, envL, batchL, ltW, lmW],
   by norm_num [trainStep, emittedLayers, mseLoss, mulArr, envL, batchL,
     ltW, lmW]⟩

/-- When shape-descriptors are off, the second argument of `predArrays`
(the shape-descriptor prediction) is irrelevant. -/
theorem predArrays_lsds_false (env : Env) (h : env.lsds = false)
    (affPred x y : Arr) :
    predArrays env affPred x = predArrays env affPred y := by
  simp [predArrays, h]

/-- The batch a snapshot step pulls (`pipeline.next(True)`). -/
def snapBatch (env : Env) (iteration : Nat) : PipeBatch :=
  env.pipelineNext iteration true

/-- The detached prediction arrays attached to a snapshot emission. -/
def snapPreds (env : Env) (iteration : Nat) : List NamedArray :=
  predArrays env
    (env.forward iteration (snapBatch env iteration).rawArray.data).1
    (env.forward iteration (snapBatch env iteration).rawArray.data).2

/-- Claim C6: a snapshot-sentinel command advances the iteration counter
exactly as a plain training step does (never resets it), and — assuming
the Pipeline Provider contract that the snapshot flag only adds snapshot
arrays without changing the core batch tensors — the only difference
from the plain step's emission is the attached diagnostic arrays: the
raw pipeline arrays, the pipeline-provided snapshot arrays, and the
detached predictions named `"sample_aff_pred"` (plus
`"sample_lsd_pred"` when shape-descriptors are on) with axes
`(batch, channel, *spatial_axes)`; the emitted tuple has python length
greater than 2. -/
theorem snapshot_step_emission (env : Env) (iteration : Nat)
    (harity : env.lsds = true →
      ∃ lt lm, (env.pipelineNext iteration true).lsdArrays = [lt, lm])
    (hraw : (env.pipelineNext iteration false).rawArray =
      (env.pipelineNext iteration true).rawArray)
    (htgt : (env.pipelineNext iteration false).affTargetArray =
      (env.pipelineNext iteration true).affTargetArray)
    (hmask : (env.pipelineNext iteration false).affMaskArray =
      (env.pipelineNext iteration true).affMaskArray)
    (hlsd : (env.pipelineNext iteration false).lsdArrays =
      (env.pipelineNext iteration true).lsdArrays) :
    ∃ q : ℚ,
      stepGen env iteration Mode.snapshotSentinel =
        Except.ok (iteration + 1,
          ⟨Option.some (iteration + 1), Option.some (LossVal.val q),
           (snapBatch env iteration).arrays ++
             (snapBatch env iteration).snapshotArrays ++
             snapPreds env iteration⟩) ∧
      stepGen env iteration Mode.nonePayload =
        Except.ok (iteration + 1,
          ⟨Option.some (iteration + 1), Option.some (LossVal.val q), []⟩) ∧
      2 + ((snapBatch env iteration).arrays ++
             (snapBatch env iteration).snapshotArrays ++
             snapPreds env iteration).length > 2 ∧
      (snapPreds env iteration).map
          (fun na => (na.name, na.layerKind, na.axes)) =
        ("sample_aff_pred", "image",
          "batch" :: "channel" :: env.spatialAxes) ::
          (if env.lsds then
            [("sample_lsd_pred", "image",
              "batch" :: "channel" :: env.spatialAxes)]
          else []) := by
  have hsnapstep : stepGen env iteration Mode.snapshotSentinel =
      (match trainStep env iteration true with
       | Option.none => Except.error Err.pipelineArity
       | Option.some (loss, layers) =>
         Except.ok (iteration + 1,
           ⟨Option.some (iteration + 1),
            Option.some (LossVal.val loss), layers⟩)) := rfl
  have hnonestep : stepGen env iteration Mode.nonePayload =
      (match trainStep env iteration false with
       | Option.none => Except.error Err.pipelineArity
       | Option.some (loss, layers) =>
         Except.ok (iteration + 1,
           ⟨Option.some (iteration + 1),
            Option.some (LossVal.val loss), layers⟩)) := rfl
  have hlen : 2 + ((snapBatch env iteration).arrays ++
      (snapBatch env iteration).snapshotArrays ++
      snapPreds env iteration).length > 2 := by
    simp [PipeBatch.arrays, snapBatch]
  have hmap : (snapPreds env iteration).map
      (fun na => (na.name, na.layerKind, na.axes)) =
      ("sample_aff_pred", "image",
        "batch" :: "channel" :: env.spatialAxes) ::
        (if env.lsds then
          [("sample_lsd_pred", "image",
            "batch" :: "channel" :: env.spatialAxes)]
        else []) := by
    cases hl : env.lsds <;> simp [snapPreds, predArrays, hl]
  cases hl : env.lsds with
  | true =>
    rw [hl] at hmap
    obtain ⟨lt, lm, hb⟩ := harity hl
    have hb2 : (env.pipelineNext iteration false).lsdArrays = [lt, lm] := by
      rw [hlsd, hb]
    refine ⟨mseLoss
        (mulArr (env.forward iteration
            (env.pipelineNext iteration true).rawArray.data).1
          (env.pipelineNext iteration true).affMaskArray.data)
        (mulArr (env.pipelineNext iteration true).affTargetArray.data
          (env.pipelineNext iteration true).affMaskArray.data)
      * mseLoss
        (mulArr (env.forward iteration
            (env.pipelineNext iteration true).rawArray.data).2
          lm.data)
        (mulArr lt.data lm.data), ?_, ?_, hlen, hmap⟩
    · have ht : trainStep env iteration true =
          Option.some (mseLoss
              (mulArr (env.forward iteration
                  (env.pipelineNext iteration true).rawArray.data).1
                (env.pipelineNext iteration true).affMaskArray.data)
              (mulArr (env.pipelineNext iteration true).affTargetArray.data
                (env.pipelineNext iteration true).affMaskArray.data)
            * mseLoss
              (mulArr (env.forward iteration
                  (env.pipelineNext iteration true).rawArray.data).2
                lm.data)
              (mulArr lt.data lm.data),
            (snapBatch env iteration).arrays ++
              (snapBatch env iteration).snapshotArrays ++
              snapPreds env iteration) := by
        simp only [trainStep, hl, if_true, hb]
        simp [emittedLayers, snapPreds, snapBatch]
      rw [hsnapstep, ht]
    · have hf : trainStep env iteration false =
          Option.some (mseLoss
              (mulArr (env.forward iteration
                  (env.pipelineNext iteration true).rawArray.data).1
                (env.pipelineNext iteration true).affMaskArray.data)
              (mulArr (env.pipelineNext iteration true).affTargetArray.data
                (env.pipelineNext iteration true).affMaskArray.data)
            * mseLoss
              (mulArr (env.forward iteration
                  (env.pipelineNext iteration true).rawArray.data).2
                lm.data)
              (mulArr lt.data lm.data), []) := by
        simp only [trainStep, hl, if_true, hb2]
        simp [emittedLayers, hraw, htgt, hmask]
      rw [hnonestep, hf]
  | false =>
    rw [hl] at hmap
    refine ⟨mseLoss
        (mulArr (env.forward iteration
            (env.pipelineNext iteration true).rawArray.data).1
          (env.pipelineNext iteration true).affMaskArray.data)
        (mulArr (env.pipelineNext iteration true).affTargetArray.data
          (env.pipelineNext iteration true).affMaskArray.data),
      ?_, ?_, hlen, hmap⟩
    · have ht : trainStep env iteration true =
          Option.some (mseLoss
              (mulArr (env.forward iteration
                  (env.pipelineNext iteration true).rawArray.data).1
                (env.pipelineNext iteration true).affMaskArray.data)
              (mulArr (env.pipelineNext iteration true).affTargetArray.data
                (env.pipelineNext iteration true).affMaskArray.data),
            (snapBatch env iteration).arrays ++
              (snapBatch env iteration).snapshotArrays ++
              snapPreds env iteration) := by
        simp [trainStep, hl, emittedLayers, snapPreds, snapBatch,
          predArrays]
      rw [hsnapstep, ht]
    · have hf : trainStep env iteration false =
          Option.some (mseLoss
              (mulArr (env.forward iteration
                  (env.pipelineNext iteration true).rawArray.data).1
                (env.pipelineNext iteration true).affMaskArray.data)
              (mulArr (env.pipelineNext iteration true).affTargetArray.data
                (env.pipelineNext iteration true).affMaskArray.data), []) := by
        simp [trainStep, hl, emittedLayers, hraw, htgt, hmask]
      rw [hnonestep, hf]

/-- Witness for claim C6, at the concrete lsds environment `envL`. -/
theorem snapshot_step_emission_witness :
    (envL.lsds = true →
      ∃ lt lm, (envL.pipelineNext 0 true).lsdArrays = [lt, lm]) ∧
    (envL.pipelineNext 0 false).rawArray =
      (envL.pipelineNext 0 true).rawArray ∧
    (envL.pipelineNext 0 false).affTargetArray =
      (envL.pipelineNext 0 true).affTargetArray ∧
    (envL.pipelineNext 0 false).affMaskArray =
      (envL.pipelineNext 0 true).affMaskArray ∧
    (envL.pipelineNext 0 false).lsdArrays =
      (envL.pipelineNext 0 true).lsdArrays ∧
    (∃ q : ℚ,
      stepGen envL 0 Mode.snapshotSentinel =
        Except.ok (0 + 1,
          ⟨Option.some (0 + 1), Option.some (LossVal.val q),
           (snapBatch envL 0).arrays ++ (snapBatch envL 0).snapshotArrays ++
             snapPreds envL 0⟩) ∧
      stepGen envL 0 Mode.nonePayload =
        Except.ok (0 + 1,
          ⟨Option.some (0 + 1), Option.some (LossVal.val q), []⟩) ∧
      2 + ((snapBatch envL 0).arrays ++ (snapBatch envL 0).snapshotArrays ++
             snapPreds envL 0).length > 2 ∧
      (snapPreds envL 0).map (fun na => (na.name, na.layerKind, na.axes)) =
        ("sample_aff_pred", "image",
          "batch" :: "channel" :: envL.spatialAxes) ::
          (if envL.lsds then
            [("sample_lsd_pred", "image",
              "batch" :: "channel" :: envL.spatialAxes)]
          else [])) :=
  ⟨fun _ => ⟨ltW, lmW, rfl⟩, rfl, rfl, rfl, rfl,
   snapshot_step_emission envL 0 (fun _ => ⟨ltW, lmW, rfl⟩) rfl rfl rfl rfl⟩

/-- After replacing the data of the layer found under `name`, looking the
name up returns the new data. -/
theorem lookupLayer_setLayerData (layers : List (String × Arr))
    (name : String) (v existing : Arr)
    (h : lookupLayer layers name = Option.some existing) :
    lookupLayer (setLayerData layers name v) name = Option.some v := by
  induction layers with
  | nil => simp [lookupLayer] at h
  | cons p rest ih =>
    obtain ⟨n, d⟩ := p
    by_cases hn : n = name
    · simp [lookupLayer, setLayerData, hn]
    · simp only [lookupLayer, setLayerData, if_neg hn] at h ⊢
      exact ih h

/-- Claim C9: when a named array arrives and a display layer of that name
already exists, the layer's data becomes the concatenation along axis 0,
in emission order, of the existing data reshaped to
`(-1, *sample_shape)` with the new data reshaped the same way, where
`sample_shape` is the new array's shape after the batch-axis position;
the inferred batch dimension of the result is the sum of the two
inferred batch sizes. -/
theorem layer_concat_reconciliation (st : ViewerState) (na : NamedArray)
    (existing : Arr) (st2 : ViewerState)
    (hex : lookupLayer st.layers na.name = Option.some existing)
    (hok : addLayerArray st na = Option.some st2) :
    ∃ ex2 new2 combined,
      reshapeFlat existing (sampleShapeOf na.axes na.data.shape) =
        Option.some ex2 ∧
      reshapeFlat na.data (sampleShapeOf na.axes na.data.shape) =
        Option.some new2 ∧
      concatAxis0 ex2 new2 = Option.some combined ∧
      combined.shape =
        (existing.shape.prod / (sampleShapeOf na.axes na.data.shape).prod +
         na.data.shape.prod / (sampleShapeOf na.axes na.data.shape).prod) ::
          sampleShapeOf na.axes na.data.shape ∧
      combined.data = existing.data ++ na.data.data ∧
      lookupLayer st2.layers na.name = Option.some combined := by
  unfold addLayerArray at hok
  cases hu : updateAxisLabels st.axisLabels na.axes with
  | none => rw [hu] at hok; cases hok
  | some labels1 =>
    rw [hu] at hok
    dsimp only at hok
    rw [hex] at hok
    dsimp only at hok
    cases hr1 : reshapeFlat existing (sampleShapeOf na.axes na.data.shape) with
    | none => rw [hr1] at hok; cases hok
    | some ex2 =>
      rw [hr1] at hok
      cases hr2 : reshapeFlat na.data (sampleShapeOf na.axes na.data.shape) with
      | none => rw [hr2] at hok; cases hok
      | some new2 =>
        rw [hr2] at hok
        dsimp only at hok
        cases hc : concatAxis0 ex2 new2 with
        | none => rw [hc] at hok; cases hok
        | some combined =>
          rw [hc] at hok
          dsimp only at hok
          cases labels1 with
          | nil => cases hok
          | cons l0 rest =>
            dsimp only at hok
            cases hok
            refine ⟨ex2, new2, combined, rfl, rfl, hc, ?_, ?_, ?_⟩
            · unfold reshapeFlat at hr1 hr2
              dsimp only at hr1 hr2
              split at hr1
              · split at hr2
                · rw [Option.some.injEq] at hr1 hr2
                  subst hr1
                  subst hr2
                  unfold concatAxis0 at hc
                  dsimp only at hc
                  rw [if_pos rfl, Option.some.injEq] at hc
                  subst hc
                  rfl
                · cases hr2
              · cases hr1
            · unfold reshapeFlat at hr1 hr2
              dsimp only at hr1 hr2
              split at hr1
              · split at hr2
                · rw [Option.some.injEq] at hr1 hr2
                  subst hr1
                  subst hr2
                  unfold concatAxis0 at hc
                  dsimp only at hc
                  rw [if_pos rfl, Option.some.injEq] at hc
                  subst hc
                  rfl
                · cases hr2
              · cases hr1
            · exact lookupLayer_setLayerData st.layers na.name combined
                existing hex

/-- An existing layer's data with batch size 2 (shape `(2, 2, 2)`). -/
def arrX2 : Arr := ⟨[2, 2, 2], [0, 1, 2, 3, 4, 5, 6, 7]⟩

/-- A newly emitted array with batch size 3 (shape `(3, 2, 2)`). -/
def arrX3 : Arr :=
  ⟨[3, 2, 2], [10, 11, 12, 13, 14, 15, 16, 17, 18, 19, 20, 21]⟩

/-- The second emission named `"X"` with axes `(batch, y, x)`. -/
def naX3 : NamedArray := ⟨arrX3, "X", ["batch", "y", "x"], Option.none, "image"⟩

/-- A viewer that already holds the layer `"X"` from the first emission. -/
def stX : ViewerState := ⟨["channels", "y", "x"], [("X", arrX2)]⟩

/-- The viewer after delivering `naX3` into `stX`: the layer's batch
dimension is `2 + 3 = 5` and its data is the concatenation in emission
order. -/
def stX2 : ViewerState :=
  ⟨["batch", "channels", "y", "x"],
   [("X", ⟨[5, 2, 2],
     [0, 1, 2, 3, 4, 5, 6, 7,
      10, 11, 12, 13, 14, 15, 16, 17, 18, 19, 20, 21]⟩)]⟩

/-- Witness for claim C9: two successive emissions named `"X"` with axes
`(batch, y, x)` and batch sizes 2 and 3 yield a layer with batch
dimension 5 whose data is the concatenation in emission order. -/
theorem layer_concat_reconciliation_witness :
    lookupLayer stX.layers naX3.name = Option.some arrX2 ∧
    addLayerArray stX naX3 = Option.some stX2 ∧
    (∃ ex2 new2 combined,
      reshapeFlat arrX2 (sampleShapeOf naX3.axes naX3.data.shape) =
        Option.some ex2 ∧
      reshapeFlat naX3.data (sampleShapeOf naX3.axes naX3.data.shape) =
        Option.some new2 ∧
      concatAxis0 ex2 new2 = Option.some combined ∧
      combined.shape =
        (arrX2.shape.prod / (sampleShapeOf naX3.axes naX3.data.shape).prod +
         naX3.data.shape.prod /
           (sampleShapeOf naX3.axes naX3.data.shape).prod) ::
          sampleShapeOf naX3.axes naX3.data.shape ∧
      combined.data = arrX2.data ++ naX3.data.data ∧
      lookupLayer stX2.layers naX3.name = Option.some combined) ∧
    lookupLayer stX2.layers "X" =
      Option.some ⟨[5, 2, 2], arrX2.data ++ arrX3.data⟩ :=
  ⟨rfl, by rfl,
   layer_concat_reconciliation stX naX3 arrX2 stX2 rfl (by rfl), by rfl⟩

/-- Claim C10: for every received result tuple in which `iteration` or
`loss` is `None` — in particular the inference emission
`(None, None, named_array)` — the displayed iteration and loss strings
are left unchanged; they are updated exactly when both are present; in
either case any attached named arrays are still delivered to the
viewer. -/
theorem progress_display_update (st : UIState) (em : Emission)
    (st2 : UIState) (hok : onYield st em = Option.some st2) :
    ((em.iteration = Option.none ∨ em.loss = Option.none) →
      st2.iterationsText = st.iterationsText ∧
      st2.lossText = st.lossText) ∧
    (∀ it l, em.iteration = Option.some it → em.loss = Option.some l →
      st2.iterationsText = toString it ∧ st2.lossText = lossRepr l) ∧
    (∃ v, addLayers st.viewer em.layers = Option.some v ∧
      st2.viewer = v) := by
  unfold onYield at hok
  dsimp only at hok
  by_cases hlen : 0 < em.layers.length
  · rw [if_pos hlen] at hok
    cases hadd : addLayers st.viewer em.layers with
    | none => rw [hadd] at hok; cases hok
    | some v =>
      rw [hadd] at hok
      dsimp only at hok
      cases hit : em.iteration with
      | none =>
        rw [hit] at hok
        cases hl : em.loss <;> rw [hl] at hok <;> dsimp only at hok <;>
          cases hok <;>
          exact ⟨fun _ => ⟨rfl, rfl⟩,
            fun it l h1 h2 => absurd h1 (by simp),
            ⟨v, rfl, rfl⟩⟩
      | some it =>
        rw [hit] at hok
        cases hl : em.loss with
        | none =>
          rw [hl] at hok
          dsimp only at hok
          cases hok
          exact ⟨fun _ => ⟨rfl, rfl⟩,
            fun it2 l2 h1 h2 => absurd h2 (by simp),
            ⟨v, rfl, rfl⟩⟩
        | some l =>
          rw [hl] at hok
          dsimp only at hok
          cases hok
          refine ⟨?_, ?_, ⟨v, rfl, rfl⟩⟩
          · rintro (h | h) <;> cases h
          · intro it2 l2 h1 h2
            cases h1
            cases h2
            exact ⟨rfl, rfl⟩
  · rw [if_neg hlen] at hok
    have hnil : em.layers = [] :=
      List.length_eq_zero.mp (by omega)
    dsimp only at hok
    cases hit : em.iteration with
    | none =>
      rw [hit] at hok
      cases hl : em.loss <;> rw [hl] at hok <;> dsimp only at hok <;>
        cases hok <;>
        exact ⟨fun _ => ⟨rfl, rfl⟩,
          fun it l h1 h2 => absurd h1 (by simp),
          ⟨st.viewer, by rw [hnil]; rfl, rfl⟩⟩
    | some it =>
      rw [hit] at hok
      cases hl : em.loss with
      | none =>
        rw [hl] at hok
        dsimp only at hok
        cases hok
        exact ⟨fun _ => ⟨rfl, rfl⟩,
          fun it2 l2 h1 h2 => absurd h2 (by simp),
          ⟨st.viewer, by rw [hnil]; rfl, rfl⟩⟩
      | some l =>
        rw [hl] at hok
        dsimp only at hok
        cases hok
        refine ⟨?_, ?_, ⟨st.viewer, by rw [hnil]; rfl, rfl⟩⟩
        · rintro (h | h) <;> cases h
        · intro it2 l2 h1 h2
          cases h1
          cases h2
          exact ⟨rfl, rfl⟩

/-- The named array of a concrete inference emission. -/
def naInf : NamedArray :=
  ⟨⟨[2, 2, 2], [0, 0, 0, 0, 0, 0, 0, 0]⟩, "Affinities",
   ["channel", "y", "x"], Option.some [[-1, 0], [0, -1]], "image"⟩

/-- A widget state before receiving the inference emission. -/
def stU : UIState := ⟨"None", "nan", ⟨["0", "1", "2"], []⟩⟩

/-- The inference emission `(None, None, named_array)`. -/
def emInf : Emission := ⟨Option.none, Option.none, [naInf]⟩

/-- The widget state after `on_yield` on `emInf`: the display strings are
untouched, the array was delivered as a new layer. -/
def stU2 : UIState :=
  ⟨"None", "nan",
   ⟨["channels", "y", "x"],
    [("Affinities", ⟨[2, 2, 2], [0, 0, 0, 0, 0, 0, 0, 0]⟩)]⟩⟩

/-- Witness for claim C10: delivering the inference emission
`(None, None, named_array)` leaves the displayed strings unchanged while
the named array still reaches the viewer. -/
theorem progress_display_update_witness :
    onYield stU emInf = Option.some stU2 ∧
    ((emInf.iteration = Option.none ∨ emInf.loss = Option.none) →
      stU2.iterationsText = stU.iterationsText ∧
      stU2.lossText = stU.lossText) ∧
    (∃ v, addLayers stU.viewer emInf.layers = Option.some v ∧
      stU2.viewer = v) :=
  ⟨by rfl, (progress_display_update stU emInf stU2 (by rfl)).1,
   (progress_display_update stU emInf stU2 (by rfl)).2.2⟩
